import Mathlib

/-!
Shallow embedding of the hand-vista-contours page component.

The repository holds four near-duplicate React components; the engineering
core common to them is the camera/render-loop lifecycle.  Three variants
carry that core and are embedded here:

* `Tsx`   — src/src/components/HandDetection.tsx: detection delegated to an
            external hand-pose detector, keypoints gated by a 0.5 confidence
            threshold.
* `Mock0` — src/unnamed/part_000: mock variant, random 1-or-2 hand count,
            static mock hand drawing.
* `Mock1` — src/unnamed/part_001: mock variant with a 33 ms throttle and
            sine/cosine animated hands.

Conventions of the embedding:

* Component state (React `useState`/`useRef` cells) becomes one `State`
  structure per variant; a handler is a function `State → inputs → State`.
* The DOM `<video>` and `<canvas>` elements are unconditionally rendered by
  every variant's JSX, so the `videoRef.current` / `canvasRef.current` /
  `getContext` presence guards always pass in a mounted component and the
  refs are modelled as present; `videoRef.current.srcObject` (which the code
  does set and null) is the `video : Option MediaStream` field.
* The host's `requestAnimationFrame` scheduler keeps at most one pending
  request per component here (the code stores a single handle), modelled by
  `pending : Option Nat`; `requestAnimationFrame` sets it and returns the
  fresh handle, `cancelAnimationFrame h` clears it when `h` is the pending
  request, and the host firing a tick consumes it (`runTick` nulls `pending`
  before running the callback body).
* The 2-D context is a `Canvas` whose `content` is the list of drawing
  operations currently visible; `clearRect(0,0,w,h)` (always full-surface in
  this code) empties it, every other primitive appends.
* `Math.random()` and timestamps become explicit `ℚ` inputs of a tick;
  `Math.sin`/`Math.cos`/`Math.PI` (double precision in JS, used only for
  cosmetic mock coordinates) become an explicit `MathEnv` of rational
  functions, so every definition stays computable.
* External fallible calls (`estimateHands`, `getUserMedia`) become
  `Except`-valued inputs; `console.error` appends to a `log` field and the
  number of `getUserMedia` calls is counted in `cameraRequests`, making
  "logged" and "camera not requested" provable.
* Activity State (spec §3) maps onto the code's cells: Active ↔
  `isActive = true`; Idle ↔ inactive with no stream, no pending tick and a
  cleared surface; the Error state is signalled by the camera-failure
  message (spec §7), which the model-not-ready path never sets.
-/

namespace HandVista

/-- One drawing primitive of the 2-D context, as the component uses it. -/
inductive DrawOp where
  /-- `drawImage(video, 0, 0, w, h)`: blit the current video frame. -/
  | drawImage (w h : ℚ)
  /-- `fillRect(0, 0, w, h)` with the given fill style. -/
  | fillRect (w h : ℚ) (color : String)
  /-- `arc` + `fill`: a filled circle. -/
  | fillCircle (x y r : ℚ) (color : String)
  /-- `arc` + `stroke`: a stroked circle. -/
  | strokeCircle (x y r : ℚ) (color : String)
  /-- `moveTo`/`lineTo` + `stroke`: a stroked segment. -/
  | strokeLine (x1 y1 x2 y2 : ℚ) (color : String)
  deriving DecidableEq, Repr

/-- The drawing surface: its size attributes and the operations currently
visible on it.  `clearRect` over the full surface empties `content`. -/
structure Canvas where
  width : ℚ
  height : ℚ
  content : List DrawOp
  deriving DecidableEq, Repr

/-- `ctx.clearRect(0, 0, canvas.width, canvas.height)`. -/
def Canvas.clear (c : Canvas) : Canvas :=
  { c with content := [] }

/-- One drawing call. -/
def Canvas.draw (c : Canvas) (op : DrawOp) : Canvas :=
  { c with content := c.content ++ [op] }

/-- A sequence of drawing calls. -/
def Canvas.drawAll (c : Canvas) (ops : List DrawOp) : Canvas :=
  { c with content := c.content ++ ops }

/-- A `MediaStreamTrack`: `stopCalls` counts `track.stop()` invocations. -/
structure Track where
  stopCalls : Nat
  deriving DecidableEq, Repr

/-- `track.stop()`. -/
def Track.stop (t : Track) : Track :=
  { t with stopCalls := t.stopCalls + 1 }

/-- A track's `readyState` is "live" until `stop()` has been called on it. -/
def Track.live (t : Track) : Bool :=
  t.stopCalls == 0

/-- A `MediaStream`: the tracks `getTracks()` returns. -/
structure MediaStream where
  tracks : List Track
  deriving DecidableEq, Repr

/-- `stream.getTracks().forEach(track => track.stop())`. -/
def MediaStream.stopTracks (s : MediaStream) : MediaStream :=
  { tracks := s.tracks.map Track.stop }

/-- A detector keypoint: position and the optional confidence score of the
hand-pose-detection API (`score?: number`). -/
structure Keypoint where
  x : ℚ
  y : ℚ
  score : Option ℚ
  deriving DecidableEq, Repr

/-- One detected hand: its keypoint list. -/
structure Hand where
  keypoints : List Keypoint
  deriving DecidableEq, Repr

/-- `Math.sin`, `Math.cos` and `Math.PI` as the environment supplies them
(JS doubles; only cosmetic mock coordinates depend on them). -/
structure MathEnv where
  sinQ : ℚ → ℚ
  cosQ : ℚ → ℚ
  piQ : ℚ

/-- `Math.floor(r * 2) + 1` for a draw `r` of `Math.random()`: the mock
variants' per-frame hand count. -/
def randomHandCount (r : ℚ) : ℤ :=
  ⌊r * 2⌋ + 1

namespace Tsx

/-- Component state of the delegated-detector variant
(src/src/components/HandDetection.tsx).  `animationFrame` is the stored
`animationFrameRef.current`; `pending` is the host scheduler's pending
request; `released`, `log` and `cameraRequests` are observation fields (the
detached stream objects in the JS heap, the `console.error` log, the number
of `getUserMedia` calls). -/
structure State where
  isActive : Bool
  handCount : Nat
  error : Option String
  isLoading : Bool
  detector : Option Unit
  animationFrame : Option Nat
  pending : Option Nat
  video : Option MediaStream
  canvas : Canvas
  released : List MediaStream
  log : List String
  cameraRequests : Nat
  deriving DecidableEq, Repr

/-- `keypoint.score && keypoint.score > 0.5`: JS truthiness of the optional
score (undefined and 0 are falsy) followed by the strict comparison. -/
def scoreOk (kp : Keypoint) : Bool :=
  match kp.score with
  | none => false
  | some s => decide (s ≠ 0) && decide (1 / 2 < s)

/-- The fixed connection list of `drawHands` (thumb, index, middle, ring,
pinky chains plus the palm links). -/
def connections : List (Nat × Nat) :=
  [(0, 1), (1, 2), (2, 3), (3, 4),
   (0, 5), (5, 6), (6, 7), (7, 8),
   (0, 9), (9, 10), (10, 11), (11, 12),
   (0, 13), (13, 14), (14, 15), (15, 16),
   (0, 17), (17, 18), (18, 19), (19, 20),
   (5, 9), (9, 13), (13, 17)]

/-- The landmark marker drawn for one keypoint: a filled red circle of
radius 3 when the score passes the threshold, nothing otherwise. -/
def landmarkOps (kp : Keypoint) : List DrawOp :=
  if scoreOk kp then [.fillCircle kp.x kp.y 3 "#FF0000"] else []

/-- The segment drawn for one connection: `keypoints[start]` /
`keypoints[end]` looked up through `Option`-returning indexing (JS indexing
past the end yields `undefined`), then a green segment when both endpoint
scores pass the threshold. -/
def connectionOps (kps : List Keypoint) (c : Nat × Nat) : List DrawOp :=
  match kps.get? c.1, kps.get? c.2 with
  | some sp, some ep =>
      if scoreOk sp && scoreOk ep then
        [.strokeLine sp.x sp.y ep.x ep.y "#00FF00"]
      else []
  | _, _ => []

/-- The overlay drawn for one hand: its landmark markers, then its
connection segments. -/
def handOps (kps : List Keypoint) : List DrawOp :=
  kps.flatMap landmarkOps ++ connections.flatMap (connectionOps kps)

/-- `drawHands(hands)`: clear the canvas, draw the video frame, then every
hand's overlay. -/
def drawHands (c : Canvas) (hands : List Hand) : Canvas :=
  (c.clear.draw (.drawImage c.width c.height)).drawAll
    (hands.flatMap fun hd => handOps hd.keypoints)

/-- `detectHands()`: guarded on the detector ref (the video and canvas DOM
refs are present in a mounted component); the awaited `estimateHands` result
comes in as `res`; on success the hand count and overlay update, a rejection
is caught and logged; finally the loop reschedules itself iff `isActive`,
storing the fresh request handle `h`. -/
def detectHands (s : State) (res : Except String (List Hand)) (h : Nat) :
    State :=
  if s.detector.isNone then s
  else
    let s1 :=
      match res with
      | .ok hands =>
          { s with handCount := hands.length, canvas := drawHands s.canvas hands }
      | .error e =>
          { s with log := s.log ++ ["Hand detection error: " ++ e] }
    if s1.isActive then { s1 with animationFrame := some h, pending := some h }
    else s1

/-- The host fires the pending animation-frame request: the request is
consumed, then the callback `detectHands` runs. -/
def runTick (s : State) (res : Except String (List Hand)) (h : Nat) : State :=
  detectHands { s with pending := none } res h

/-- The model-not-ready message of `startDetection`. -/
def notReadyMsg : String :=
  "Hand detection model not loaded yet. Please try again."

/-- The camera-acquisition failure message of `startDetection` (the message
that signals the Error state, spec §7). -/
def cameraErrMsg : String :=
  "Failed to access camera. Please ensure camera permissions are granted."

/-- `startDetection()`: clear the error, refuse with `notReadyMsg` when the
detector is not initialized (before requesting the camera), otherwise
request the camera (`cam` is the awaited `getUserMedia` outcome); on grant
attach the stream, size the canvas from the video metadata (`dims`),
activate, and run the first `detectHands` tick; on denial set the camera
error. -/
def startDetection (s : State) (cam : Except String MediaStream)
    (dims : ℚ × ℚ) (firstRes : Except String (List Hand)) (h : Nat) : State :=
  let s0 := { s with error := none }
  if s0.detector.isNone then { s0 with error := some notReadyMsg }
  else
    let s1 := { s0 with cameraRequests := s0.cameraRequests + 1 }
    match cam with
    | .error e =>
        { s1 with error := some cameraErrMsg,
                  log := s1.log ++ ["Camera error: " ++ e] }
    | .ok stream =>
        let s2 := { s1 with video := some stream }
        let s3 := { s2 with
          canvas := { s2.canvas with width := dims.1, height := dims.2 },
          isActive := true }
        detectHands s3 firstRes h

/-- `stopDetection()`: deactivate, zero the hand count, cancel the stored
animation-frame handle (this variant does not null the handle afterwards),
stop every track of the attached stream and detach it, clear the canvas. -/
def stopDetection (s : State) : State :=
  let s1 := { s with isActive := false, handCount := 0 }
  let s2 :=
    match s1.animationFrame with
    | some h =>
        { s1 with pending := if s1.pending = some h then none else s1.pending }
    | none => s1
  let s3 :=
    match s2.video with
    | some stream =>
        { s2 with video := none, released := s2.released ++ [stream.stopTracks] }
    | none => s2
  { s3 with canvas := s3.canvas.clear }

/-- The freshly mounted component before any interaction. -/
def initState : State where
  isActive := false
  handCount := 0
  error := none
  isLoading := false
  detector := none
  animationFrame := none
  pending := none
  video := none
  canvas := { width := 0, height := 0, content := [] }
  released := []
  log := []
  cameraRequests := 0

/-- The scheduler invariant every reachable state satisfies: a pending
animation-frame request is always the one whose handle the component
stored (the code stores the handle of every request it makes). -/
def pendingInv (s : State) : Prop :=
  ∀ h, s.pending = some h → s.animationFrame = some h

/-- The idle configuration: inactive, zero hands, no stored handle, no
pending request, no stream, cleared surface. -/
def Idle (s : State) : Prop :=
  s.isActive = false ∧ s.handCount = 0 ∧ s.animationFrame = none ∧
    s.pending = none ∧ s.video = none ∧ s.canvas.content = []

end Tsx

namespace Mock0

/-- Component state of the plain mock variant (src/unnamed/part_000).  Same
cells as the delegated variant minus the detector ref; `handCount` is the
`Math.floor` result, an integer. -/
structure State where
  isActive : Bool
  handCount : ℤ
  error : Option String
  isLoading : Bool
  animationFrame : Option Nat
  pending : Option Nat
  video : Option MediaStream
  canvas : Canvas
  released : List MediaStream
  log : List String
  cameraRequests : Nat
  deriving DecidableEq, Repr

/-- `drawMockHands(ctx, width, height, count)`: a translucent white overlay,
then per hand a stroked palm circle and five fingers, each a green segment
and a red joint dot. -/
def drawMockHands (env : MathEnv) (w ht : ℚ) (count : ℤ) : List DrawOp :=
  DrawOp.fillRect w ht "rgba(255, 255, 255, 0.2)" ::
    (List.range count.toNat).flatMap fun h =>
      let centerX : ℚ := w * (1 / 4 + h * (1 / 2))
      let centerY : ℚ := ht * (1 / 2)
      let handSize : ℚ := min w ht * (1 / 5)
      DrawOp.strokeCircle centerX centerY (handSize * (3 / 10)) "#00FF00" ::
        (List.range 5).flatMap fun f =>
          let angle : ℚ := f * env.piQ / 4 - env.piQ / 8
          let fingerLength : ℚ := handSize * (7 / 10)
          let endX : ℚ := centerX + env.cosQ angle * fingerLength
          let endY : ℚ := centerY + env.sinQ angle * fingerLength
          [DrawOp.strokeLine centerX centerY endX endY "#00FF00",
           DrawOp.fillCircle endX endY 3 "#FF0000"]

/-- `detectHands()` of the plain mock variant: draw the video frame; while
active, roll a 1-or-2 hand count from the random draw `r`, draw the mock
hands and reschedule with the fresh handle `h`; while inactive do nothing
further (no reschedule). -/
def detectHands (env : MathEnv) (s : State) (r : ℚ) (h : Nat) : State :=
  let s1 := { s with
    canvas := s.canvas.draw (.drawImage s.canvas.width s.canvas.height) }
  if s1.isActive then
    let n := randomHandCount r
    let s2 := { s1 with handCount := n }
    let s3 := { s2 with
      canvas := s2.canvas.drawAll
        (drawMockHands env s2.canvas.width s2.canvas.height n) }
    { s3 with animationFrame := some h, pending := some h }
  else s1

/-- The host fires the pending animation-frame request. -/
def runTick (env : MathEnv) (s : State) (r : ℚ) (h : Nat) : State :=
  detectHands env { s with pending := none } r h

/-- `stopDetection()` of the plain mock variant: textually the same teardown
as the delegated variant (the handle is cancelled but not nulled). -/
def stopDetection (s : State) : State :=
  let s1 := { s with isActive := false, handCount := 0 }
  let s2 :=
    match s1.animationFrame with
    | some h =>
        { s1 with pending := if s1.pending = some h then none else s1.pending }
    | none => s1
  let s3 :=
    match s2.video with
    | some stream =>
        { s2 with video := none, released := s2.released ++ [stream.stopTracks] }
    | none => s2
  { s3 with canvas := s3.canvas.clear }

/-- The freshly mounted component before any interaction. -/
def initState : State where
  isActive := false
  handCount := 0
  error := none
  isLoading := false
  animationFrame := none
  pending := none
  video := none
  canvas := { width := 0, height := 0, content := [] }
  released := []
  log := []
  cameraRequests := 0

/-- The idle configuration (as for the delegated variant). -/
def Idle (s : State) : Prop :=
  s.isActive = false ∧ s.handCount = 0 ∧ s.animationFrame = none ∧
    s.pending = none ∧ s.video = none ∧ s.canvas.content = []

end Mock0

namespace Mock1

/-- Component state of the throttled mock variant (src/unnamed/part_001):
the plain mock cells plus the `lastFrameTime` ref. -/
structure State where
  isActive : Bool
  handCount : ℤ
  error : Option String
  isLoading : Bool
  animationFrame : Option Nat
  pending : Option Nat
  lastFrameTime : ℚ
  video : Option MediaStream
  canvas : Canvas
  released : List MediaStream
  log : List String
  cameraRequests : Nat
  deriving DecidableEq, Repr

/-- `drawSimulatedHands(ctx, width, height, count, time)`: a translucent
dark overlay, then per hand a sine/cosine-offset palm (filled and stroked)
and five animated fingers, each a green segment, a red tip dot and a red
midpoint dot. -/
def drawSimulatedHands (env : MathEnv) (w ht : ℚ) (count : ℤ) (time : ℚ) :
    List DrawOp :=
  DrawOp.fillRect w ht "rgba(0, 0, 0, 0.2)" ::
    (List.range count.toNat).flatMap fun h =>
      let xOffset : ℚ := env.sinQ (time * (7 / 10) + h * (3 / 2)) * w * (3 / 20)
      let yOffset : ℚ := env.cosQ (time * (1 / 2) + h * (23 / 10)) * ht * (1 / 10)
      let centerX : ℚ := w * (1 / 4 + h * (1 / 2)) + xOffset
      let centerY : ℚ := ht * (1 / 2) + yOffset
      let handSize : ℚ := min w ht * (3 / 20)
      DrawOp.fillCircle centerX centerY (handSize * (1 / 4)) "rgba(0, 255, 0, 0.2)" ::
      DrawOp.strokeCircle centerX centerY (handSize * (1 / 4)) "#00FF00" ::
        (List.range 5).flatMap fun f =>
          let angleOffset : ℚ := env.sinQ (time * 2 + f * (7 / 10)) * (1 / 5)
          let angle : ℚ := f * env.piQ / 4 - env.piQ / 8 + angleOffset
          let lengthMod : ℚ := env.sinQ (time * 3 + f * (6 / 5)) * (1 / 10) + 9 / 10
          let fingerLength : ℚ := handSize * (7 / 10) * lengthMod
          let endX : ℚ := centerX + env.cosQ angle * fingerLength
          let endY : ℚ := centerY + env.sinQ angle * fingerLength
          let midX : ℚ := centerX + env.cosQ angle * fingerLength * (1 / 2)
          let midY : ℚ := centerY + env.sinQ angle * fingerLength * (1 / 2)
          [DrawOp.strokeLine centerX centerY endX endY "#00FF00",
           DrawOp.fillCircle endX endY 4 "#FF0000",
           DrawOp.fillCircle midX midY 3 "#FF0000"]

/-- `updateCanvas(timestamp)`: when the delta against `lastFrameTime` is
under 33 ms, skip everything but the reschedule (reschedule only while
active); otherwise record the timestamp, draw the video frame and, while
active, roll the hand count from `r`, draw the simulated hands at `time`
(`Date.now() * 0.001`) and reschedule with the fresh handle `h`. -/
def updateCanvas (env : MathEnv) (s : State) (t : ℚ) (r : ℚ) (time : ℚ)
    (h : Nat) : State :=
  if t - s.lastFrameTime < 33 then
    if s.isActive then { s with animationFrame := some h, pending := some h }
    else s
  else
    let s1 := { s with lastFrameTime := t }
    let s2 := { s1 with
      canvas := s1.canvas.draw (.drawImage s1.canvas.width s1.canvas.height) }
    if s2.isActive then
      let n := randomHandCount r
      let s3 := { s2 with handCount := n }
      let s4 := { s3 with
        canvas := s3.canvas.drawAll
          (drawSimulatedHands env s3.canvas.width s3.canvas.height n time) }
      { s4 with animationFrame := some h, pending := some h }
    else s2

/-- The host fires the pending animation-frame request. -/
def runTick (env : MathEnv) (s : State) (t : ℚ) (r : ℚ) (time : ℚ) (h : Nat) :
    State :=
  updateCanvas env { s with pending := none } t r time h

/-- `stopDetection()` of the throttled variant: the same teardown, and this
variant nulls `animationFrameRef.current` right after
`cancelAnimationFrame`. -/
def stopDetection (s : State) : State :=
  let s1 := { s with isActive := false, handCount := 0 }
  let s2 :=
    match s1.animationFrame with
    | some h =>
        { s1 with animationFrame := none,
                  pending := if s1.pending = some h then none else s1.pending }
    | none => s1
  let s3 :=
    match s2.video with
    | some stream =>
        { s2 with video := none, released := s2.released ++ [stream.stopTracks] }
    | none => s2
  { s3 with canvas := s3.canvas.clear }

/-- The scheduler invariant every reachable state satisfies (as for the
delegated variant). -/
def pendingInv (s : State) : Prop :=
  ∀ h, s.pending = some h → s.animationFrame = some h

end Mock1

/-! ### Shared observation predicates and concrete fixtures -/

/-- What `stopDetection` does to the attached stream: with no stream
attached the released list is untouched; with one, its mutated object (all
tracks stopped) is the one new entry, every track of it is no longer live,
and a track that had never been stopped has now been stopped exactly once. -/
def releaseOk (v : Option MediaStream) (old new : List MediaStream) : Prop :=
  match v with
  | none => new = old
  | some str =>
      new = old ++ [str.stopTracks]
      ∧ (∀ tr ∈ str.stopTracks.tracks, tr.live = false)
      ∧ ((∀ tr ∈ str.tracks, tr.stopCalls = 0) →
          ∀ tr ∈ str.stopTracks.tracks, tr.stopCalls = 1)

/-- The truthiness-guarded comparison of the source
(`keypoint.score && keypoint.score > 0.5`) holds exactly when the keypoint
carries a score strictly above 1/2. -/
theorem scoreOk_iff (kp : Keypoint) :
    Tsx.scoreOk kp = true ↔ ∃ s, kp.score = some s ∧ (1 : ℚ) / 2 < s := by
  cases hk : kp.score with
  | none => simp [Tsx.scoreOk, hk]
  | some s =>
    simp only [Tsx.scoreOk, hk, Bool.and_eq_true, decide_eq_true_eq,
      Option.some.injEq]
    constructor
    · rintro ⟨-, hlt⟩
      exact ⟨s, rfl, hlt⟩
    · rintro ⟨u, rfl, hlt⟩
      exact ⟨by linarith, hlt⟩

/-- `Math.floor(r * 2) + 1` lands in {1, 2} for every draw in [0, 1). -/
theorem randomHandCount_mem (r : ℚ) (h0 : 0 ≤ r) (h1 : r < 1) :
    randomHandCount r = 1 ∨ randomHandCount r = 2 := by
  have ha : (0 : ℤ) ≤ ⌊r * 2⌋ := Int.floor_nonneg.mpr (by linarith)
  have hb : ⌊r * 2⌋ < 2 := by
    rw [Int.floor_lt]
    push_cast
    linarith
  unfold randomHandCount
  omega

/-- An arbitrary rational stand-in for the environment's `Math.sin`,
`Math.cos`, `Math.PI` (concrete runs never depend on it). -/
def trivEnv : MathEnv where
  sinQ := fun _ => 0
  cosQ := fun _ => 0
  piQ := 0

/-- A concrete active state of the throttled variant whose last processed
timestamp is 0. -/
def mock1actv : Mock1.State where
  isActive := true
  handCount := 1
  error := none
  isLoading := false
  animationFrame := some 3
  pending := some 3
  lastFrameTime := 0
  video := some { tracks := [{ stopCalls := 0 }] }
  canvas := { width := 640, height := 480, content := [] }
  released := []
  log := []
  cameraRequests := 1

/-- A concrete mid-session state of the delegated variant: active, detector
loaded, a two-track stream attached, a tick pending under handle 5. -/
def tsxFull : Tsx.State where
  isActive := true
  handCount := 2
  error := none
  isLoading := false
  detector := some ()
  animationFrame := some 5
  pending := some 5
  video := some { tracks := [{ stopCalls := 0 }, { stopCalls := 0 }] }
  canvas := { width := 640, height := 480,
              content := [.drawImage 640 480] }
  released := []
  log := []
  cameraRequests := 1

/-- A concrete mid-session state of the throttled variant mirroring
`tsxFull`. -/
def mock1Full : Mock1.State where
  isActive := true
  handCount := 2
  error := none
  isLoading := false
  animationFrame := some 5
  pending := some 5
  lastFrameTime := 100
  video := some { tracks := [{ stopCalls := 0 }, { stopCalls := 0 }] }
  canvas := { width := 640, height := 480,
              content := [.drawImage 640 480] }
  released := []
  log := []
  cameraRequests := 1

/-- Stopping a stream kills every track, and kills a previously untouched
track with exactly one `stop()` call. -/
theorem stopTracks_spec (str : MediaStream) :
    (∀ tr ∈ str.stopTracks.tracks, tr.live = false)
    ∧ ((∀ tr ∈ str.tracks, tr.stopCalls = 0) →
        ∀ tr ∈ str.stopTracks.tracks, tr.stopCalls = 1) := by
  constructor
  · intro tr htr
    simp only [MediaStream.stopTracks, List.mem_map] at htr
    obtain ⟨u, -, rfl⟩ := htr
    simp [Track.stop, Track.live]
  · intro hall tr htr
    simp only [MediaStream.stopTracks, List.mem_map] at htr
    obtain ⟨u, hu, rfl⟩ := htr
    simp [Track.stop, hall u hu]

/-- `stopDetection` of the delegated variant leaves no pending request, on
any state satisfying the scheduler invariant. -/
theorem tsx_stop_pending_none (s : Tsx.State) (hp : Tsx.pendingInv s) :
    (Tsx.stopDetection s).pending = none := by
  cases haf : s.animationFrame with
  | none =>
    cases hpd : s.pending with
    | none => cases hv : s.video <;> simp [Tsx.stopDetection, haf, hpd, hv]
    | some k =>
      have := hp k hpd
      rw [haf] at this
      exact absurd this (by simp)
  | some h =>
    cases hpd : s.pending with
    | none => cases hv : s.video <;> simp [Tsx.stopDetection, haf, hpd, hv]
    | some k =>
      have := hp k hpd
      rw [haf] at this
      injection this with hk
      subst hk
      cases hv : s.video <;> simp [Tsx.stopDetection, haf, hpd, hv]

/-- `stopDetection` of the throttled variant leaves no pending request, on
any state satisfying the scheduler invariant. -/
theorem m1_stop_pending_none (s : Mock1.State) (hp : Mock1.pendingInv s) :
    (Mock1.stopDetection s).pending = none := by
  cases haf : s.animationFrame with
  | none =>
    cases hpd : s.pending with
    | none => cases hv : s.video <;> simp [Mock1.stopDetection, haf, hpd, hv]
    | some k =>
      have := hp k hpd
      rw [haf] at this
      exact absurd this (by simp)
  | some h =>
    cases hpd : s.pending with
    | none => cases hv : s.video <;> simp [Mock1.stopDetection, haf, hpd, hv]
    | some k =>
      have := hp k hpd
      rw [haf] at this
      injection this with hk
      subst hk
      cases hv : s.video <;> simp [Mock1.stopDetection, haf, hpd, hv]

/-- The stream bookkeeping of the delegated variant's `stopDetection`. -/
theorem tsx_stop_releaseOk (s : Tsx.State) :
    releaseOk s.video s.released (Tsx.stopDetection s).released := by
  cases haf : s.animationFrame <;> cases hv : s.video <;>
    simp [Tsx.stopDetection, releaseOk, haf, hv] <;>
    exact stopTracks_spec _

/-- The stream bookkeeping of the throttled variant's `stopDetection`. -/
theorem m1_stop_releaseOk (s : Mock1.State) :
    releaseOk s.video s.released (Mock1.stopDetection s).released := by
  cases haf : s.animationFrame <;> cases hv : s.video <;>
    simp [Mock1.stopDetection, releaseOk, haf, hv] <;>
    exact stopTracks_spec _

/-- The unconditional effects of the delegated variant's `stopDetection`:
inactive, zero hand count, stream detached, surface cleared, message and
handle untouched. -/
theorem tsx_stop_fields (s : Tsx.State) :
    (Tsx.stopDetection s).isActive = false
    ∧ (Tsx.stopDetection s).handCount = 0
    ∧ (Tsx.stopDetection s).video = none
    ∧ (Tsx.stopDetection s).canvas.content = []
    ∧ (Tsx.stopDetection s).error = s.error
    ∧ (Tsx.stopDetection s).animationFrame = s.animationFrame := by
  cases haf : s.animationFrame <;> cases hv : s.video <;>
    simp [Tsx.stopDetection, Canvas.clear, haf, hv]

/-- The unconditional effects of the plain mock variant's `stopDetection`. -/
theorem m0_stop_fields (s : Mock0.State) :
    (Mock0.stopDetection s).isActive = false
    ∧ (Mock0.stopDetection s).handCount = 0
    ∧ (Mock0.stopDetection s).video = none
    ∧ (Mock0.stopDetection s).canvas.content = []
    ∧ (Mock0.stopDetection s).error = s.error
    ∧ (Mock0.stopDetection s).animationFrame = s.animationFrame := by
  cases haf : s.animationFrame <;> cases hv : s.video <;>
    simp [Mock0.stopDetection, Canvas.clear, haf, hv]

/-- The unconditional effects of the throttled variant's `stopDetection`
(this variant nulls the handle). -/
theorem m1_stop_fields (s : Mock1.State) :
    (Mock1.stopDetection s).isActive = false
    ∧ (Mock1.stopDetection s).handCount = 0
    ∧ (Mock1.stopDetection s).video = none
    ∧ (Mock1.stopDetection s).canvas.content = []
    ∧ (Mock1.stopDetection s).error = s.error := by
  cases haf : s.animationFrame <;> cases hv : s.video <;>
    simp [Mock1.stopDetection, Canvas.clear, haf, hv]

/-- Clearing an already blank surface changes nothing. -/
theorem Canvas.clear_of_empty (c : Canvas) (h : c.content = []) :
    c.clear = c := by
  unfold Canvas.clear
  rw [← h]

/-- After a cancellation pass of the delegated variant's `stopDetection`,
the stored handle's request is never still pending. -/
theorem tsx_stop_pending_ne (s : Tsx.State) (h : Nat)
    (haf : s.animationFrame = some h) :
    (Tsx.stopDetection s).pending ≠ some h := by
  cases hpd : s.pending with
  | none => cases hv : s.video <;> simp [Tsx.stopDetection, haf, hpd, hv]
  | some k =>
    by_cases hk : k = h
    · subst hk
      cases hv : s.video <;> simp [Tsx.stopDetection, haf, hpd, hv]
    · cases hv : s.video <;> simp [Tsx.stopDetection, haf, hpd, hv, hk]

/-- As `tsx_stop_pending_ne`, for the plain mock variant. -/
theorem m0_stop_pending_ne (s : Mock0.State) (h : Nat)
    (haf : s.animationFrame = some h) :
    (Mock0.stopDetection s).pending ≠ some h := by
  cases hpd : s.pending with
  | none => cases hv : s.video <;> simp [Mock0.stopDetection, haf, hpd, hv]
  | some k =>
    by_cases hk : k = h
    · subst hk
      cases hv : s.video <;> simp [Mock0.stopDetection, haf, hpd, hv]
    · cases hv : s.video <;> simp [Mock0.stopDetection, haf, hpd, hv, hk]

/-- `stopDetection` of the delegated variant fixes any already-torn-down
state: inactive, zero hands, no stream, blank surface, and no pending
request under the stored handle. -/
theorem tsx_stop_of_torn (t : Tsx.State) (h1 : t.isActive = false)
    (h2 : t.handCount = 0) (h3 : t.video = none) (h4 : t.canvas.content = [])
    (h5 : ∀ h, t.animationFrame = some h → t.pending ≠ some h) :
    Tsx.stopDetection t = t := by
  cases haf : t.animationFrame with
  | none =>
    simp only [Tsx.stopDetection, haf, h3]
    rw [Canvas.clear_of_empty _ h4, ← h1, ← h2, ← h3, ← haf]
  | some h =>
    simp only [Tsx.stopDetection, haf, h3, if_neg (h5 h haf)]
    rw [Canvas.clear_of_empty _ h4, ← h1, ← h2, ← h3, ← haf]

/-- As `tsx_stop_of_torn`, for the plain mock variant. -/
theorem m0_stop_of_torn (t : Mock0.State) (h1 : t.isActive = false)
    (h2 : t.handCount = 0) (h3 : t.video = none) (h4 : t.canvas.content = [])
    (h5 : ∀ h, t.animationFrame = some h → t.pending ≠ some h) :
    Mock0.stopDetection t = t := by
  cases haf : t.animationFrame with
  | none =>
    simp only [Mock0.stopDetection, haf, h3]
    rw [Canvas.clear_of_empty _ h4, ← h1, ← h2, ← h3, ← haf]
  | some h =>
    simp only [Mock0.stopDetection, haf, h3, if_neg (h5 h haf)]
    rw [Canvas.clear_of_empty _ h4, ← h1, ← h2, ← h3, ← haf]

/-! ### The claims -/

/-- C2: in the delegated variant's overlay renderer a circular landmark
marker is drawn for a keypoint iff its confidence score is strictly greater
than 0.5 (and then it is the red radius-3 circle at the keypoint), a
connection segment is drawn iff both endpoint keypoints have scores strictly
greater than 0.5, and a landmark with confidence 0.49 or exactly 0.5 is
never drawn. -/
theorem C2_threshold_gating :
    (∀ kp : Keypoint, Tsx.landmarkOps kp ≠ [] ↔
        ∃ s, kp.score = some s ∧ (1 : ℚ) / 2 < s)
  ∧ (∀ (kp : Keypoint) (s : ℚ), kp.score = some s → (1 : ℚ) / 2 < s →
        Tsx.landmarkOps kp = [.fillCircle kp.x kp.y 3 "#FF0000"])
  ∧ (∀ (kps : List Keypoint) (c : Nat × Nat) (sp ep : Keypoint),
        kps.get? c.1 = some sp → kps.get? c.2 = some ep →
        (Tsx.connectionOps kps c ≠ [] ↔
          ((∃ s, sp.score = some s ∧ (1 : ℚ) / 2 < s) ∧
            ∃ s, ep.score = some s ∧ (1 : ℚ) / 2 < s)))
  ∧ Tsx.landmarkOps { x := 0, y := 0, score := some (49 / 100) } = []
  ∧ Tsx.landmarkOps { x := 0, y := 0, score := some (1 / 2) } = [] := by
  refine ⟨?_, ?_, ?_, ?_, ?_⟩
  · intro kp
    rw [← scoreOk_iff]
    unfold Tsx.landmarkOps
    by_cases h : Tsx.scoreOk kp <;> simp [h]
  · intro kp s hs hlt
    have h : Tsx.scoreOk kp = true := (scoreOk_iff kp).mpr ⟨s, hs, hlt⟩
    simp [Tsx.landmarkOps, h]
  · intro kps c sp ep h1 h2
    rw [← scoreOk_iff, ← scoreOk_iff]
    simp only [Tsx.connectionOps, h1, h2]
    by_cases ha : Tsx.scoreOk sp <;> by_cases hb : Tsx.scoreOk ep <;>
      simp [ha, hb]
  · norm_num [Tsx.landmarkOps, Tsx.scoreOk]
  · norm_num [Tsx.landmarkOps, Tsx.scoreOk]

/-- C10: every joint index of the fixed connection list is at most 20, so
for a hand with at least 21 keypoints every connection-endpoint lookup is in
bounds (the `Option`-returning indexing never takes its out-of-bounds
branch); the bound is a precondition the code does not check — a shorter
keypoint list does reach that branch. -/
theorem C10_connection_indices_bounded :
    (∀ c ∈ Tsx.connections, c.1 ≤ 20 ∧ c.2 ≤ 20)
  ∧ (∀ kps : List Keypoint, 21 ≤ kps.length → ∀ c ∈ Tsx.connections,
      (kps.get? c.1).isSome ∧ (kps.get? c.2).isSome)
  ∧ (∃ kps : List Keypoint, kps.length < 21 ∧ ∃ c ∈ Tsx.connections,
      kps.get? c.2 = none ∧ Tsx.connectionOps kps c = []) := by
  have hall : ∀ c ∈ Tsx.connections, c.1 ≤ 20 ∧ c.2 ≤ 20 := by decide
  refine ⟨hall, ?_, ?_⟩
  · intro kps hlen c hc
    obtain ⟨h1, h2⟩ := hall c hc
    have hl1 : c.1 < kps.length := by omega
    have hl2 : c.2 < kps.length := by omega
    constructor
    · simp [List.get?_eq_getElem?, hl1]
    · simp [List.get?_eq_getElem?, hl2]
  · exact ⟨[], by simp, (0, 1), by decide, rfl, rfl⟩

/-- C9: in the mock variants the hand count produced on a processed frame is
always 1 or 2 — `Math.floor(random * 2) + 1` over a draw in [0, 1) — both as
the raw roll and through a full processed tick of either mock variant, for
every state, timestamp and draw. -/
theorem C9_mock_hand_count :
    (∀ r : ℚ, 0 ≤ r → r < 1 →
      randomHandCount r = 1 ∨ randomHandCount r = 2)
  ∧ (∀ (env : MathEnv) (s : Mock0.State) (r : ℚ) (h : Nat),
      s.isActive = true → 0 ≤ r → r < 1 →
      (Mock0.runTick env s r h).handCount = 1 ∨
        (Mock0.runTick env s r h).handCount = 2)
  ∧ (∀ (env : MathEnv) (s : Mock1.State) (t r time : ℚ) (h : Nat),
      s.isActive = true → 33 ≤ t - s.lastFrameTime → 0 ≤ r → r < 1 →
      (Mock1.runTick env s t r time h).handCount = 1 ∨
        (Mock1.runTick env s t r time h).handCount = 2)
  ∧ randomHandCount 0 = 1 ∧ randomHandCount (9 / 10) = 2 := by
  refine ⟨randomHandCount_mem, ?_, ?_, ?_, ?_⟩
  · intro env s r h hact h0 h1
    have hm := randomHandCount_mem r h0 h1
    simp only [Mock0.runTick, Mock0.detectHands, Canvas.draw, Canvas.drawAll,
      hact, if_true]
    simpa using hm
  · intro env s t r time h hact hthr h0 h1
    have hm := randomHandCount_mem r h0 h1
    have hge : ¬ t - s.lastFrameTime < 33 := not_lt.mpr hthr
    simp only [Mock1.runTick, Mock1.updateCanvas, Canvas.draw, Canvas.drawAll,
      hact, hge, if_false, if_true]
    simpa using hm
  · norm_num [randomHandCount]
  · norm_num [randomHandCount]

/-- C6: a tick of the throttled variant whose timestamp delta is below
33 ms, executing while active, changes nothing — no hand roll, no drawing,
no `lastFrameTime` update — except that it schedules exactly one next tick,
so throttling never stalls the reschedule chain. -/
theorem C6_throttled_tick_reschedules (env : MathEnv) (s : Mock1.State)
    (t r time : ℚ) (h : Nat) (hact : s.isActive = true)
    (hthr : t - s.lastFrameTime < 33) :
    Mock1.runTick env s t r time h =
      { s with animationFrame := some h, pending := some h } := by
  simp [Mock1.runTick, Mock1.updateCanvas, hthr, hact]

/-- C6 at a concrete input: the active throttled state at timestamp delta
10 ms reschedules under the fresh handle. -/
theorem C6_throttled_tick_reschedules_witness :
    mock1actv.isActive = true ∧ (10 : ℚ) - mock1actv.lastFrameTime < 33 ∧
      Mock1.runTick trivEnv mock1actv 10 (1 / 2) 0 7 =
        { mock1actv with animationFrame := some 7, pending := some 7 } :=
  ⟨rfl, by norm_num [mock1actv],
    C6_throttled_tick_reschedules trivEnv mock1actv 10 (1 / 2) 0 7 rfl
      (by norm_num [mock1actv])⟩

/-- C7: when the external detector rejects a frame on an active tick of the
delegated variant, the failure is caught and logged at the tick boundary and
the next tick is still scheduled — the state changes only by the log entry
and the fresh schedule. -/
theorem C7_detection_failure_logged_loop_alive (s : Tsx.State) (e : String)
    (h : Nat) (hact : s.isActive = true) (hdet : s.detector = some ()) :
    Tsx.runTick s (Except.error e) h =
      { s with animationFrame := some h, pending := some h,
               log := s.log ++ ["Hand detection error: " ++ e] } := by
  simp [Tsx.runTick, Tsx.detectHands, hdet, hact]

/-- C7 at a concrete input: tick N rejects with "boom", tick N+1 is pending
under the fresh handle 9. -/
theorem C7_detection_failure_logged_loop_alive_witness :
    tsxFull.isActive = true ∧ tsxFull.detector = some () ∧
      Tsx.runTick tsxFull (Except.error "boom") 9 =
        { tsxFull with animationFrame := some 9, pending := some 9,
                       log := tsxFull.log ++ ["Hand detection error: " ++ "boom"] } :=
  ⟨rfl, rfl,
    C7_detection_failure_logged_loop_alive tsxFull "boom" 9 rfl rfl⟩

/-- C8: calling `startDetection` of the delegated variant before the
detector is initialized only surfaces the model-not-ready message — the
camera is not requested, no tick is scheduled, activity does not change, and
the message set is not the camera-failure message that signals the Error
state. -/
theorem C8_start_blocked_when_model_not_ready (s : Tsx.State)
    (cam : Except String MediaStream) (dims : ℚ × ℚ)
    (firstRes : Except String (List Hand)) (h : Nat)
    (hdet : s.detector = none) :
    Tsx.startDetection s cam dims firstRes h =
        { s with error := some Tsx.notReadyMsg }
      ∧ Tsx.notReadyMsg ≠ Tsx.cameraErrMsg := by
  constructor
  · simp [Tsx.startDetection, hdet]
  · decide

/-- C8 at a concrete input: starting the freshly mounted component (model
still loading) with a camera that would even be denied touches nothing but
the message. -/
theorem C8_start_blocked_when_model_not_ready_witness :
    Tsx.initState.detector = none ∧
      (Tsx.startDetection Tsx.initState (Except.error "denied") (640, 480)
            (Except.ok []) 1 =
          { Tsx.initState with error := some Tsx.notReadyMsg }
        ∧ Tsx.notReadyMsg ≠ Tsx.cameraErrMsg) :=
  ⟨rfl,
    C8_start_blocked_when_model_not_ready Tsx.initState (Except.error "denied")
      (640, 480) (Except.ok []) 1 rfl⟩

/-- C3: after `stopDetection` from any state satisfying the scheduler
invariant — in the delegated and in the throttled variant — the component is
inactive (Idle) with hand count 0, no render tick is pending, the stream is
detached and every one of its tracks stopped (exactly once if previously
untouched), and the drawing surface is cleared. -/
theorem C3_stop_full_teardown (s : Tsx.State) (s1 : Mock1.State)
    (hp : Tsx.pendingInv s) (hp1 : Mock1.pendingInv s1) :
    ((Tsx.stopDetection s).isActive = false
      ∧ (Tsx.stopDetection s).handCount = 0
      ∧ (Tsx.stopDetection s).pending = none
      ∧ (Tsx.stopDetection s).video = none
      ∧ (Tsx.stopDetection s).canvas.content = []
      ∧ releaseOk s.video s.released (Tsx.stopDetection s).released)
    ∧ ((Mock1.stopDetection s1).isActive = false
      ∧ (Mock1.stopDetection s1).handCount = 0
      ∧ (Mock1.stopDetection s1).pending = none
      ∧ (Mock1.stopDetection s1).video = none
      ∧ (Mock1.stopDetection s1).canvas.content = []
      ∧ releaseOk s1.video s1.released (Mock1.stopDetection s1).released) := by
  obtain ⟨ha, hb, hc, hd, -, -⟩ := tsx_stop_fields s
  obtain ⟨ea, eb, ec, ed, -⟩ := m1_stop_fields s1
  exact ⟨⟨ha, hb, tsx_stop_pending_none s hp, hc, hd, tsx_stop_releaseOk s⟩,
    ⟨ea, eb, m1_stop_pending_none s1 hp1, ec, ed, m1_stop_releaseOk s1⟩⟩

/-- C3 at a concrete input: tearing down the mid-session states (active,
stream with live tracks attached, tick pending). -/
theorem C3_stop_full_teardown_witness :
    Tsx.pendingInv tsxFull ∧ Mock1.pendingInv mock1Full ∧
    (((Tsx.stopDetection tsxFull).isActive = false
      ∧ (Tsx.stopDetection tsxFull).handCount = 0
      ∧ (Tsx.stopDetection tsxFull).pending = none
      ∧ (Tsx.stopDetection tsxFull).video = none
      ∧ (Tsx.stopDetection tsxFull).canvas.content = []
      ∧ releaseOk tsxFull.video tsxFull.released (Tsx.stopDetection tsxFull).released)
    ∧ ((Mock1.stopDetection mock1Full).isActive = false
      ∧ (Mock1.stopDetection mock1Full).handCount = 0
      ∧ (Mock1.stopDetection mock1Full).pending = none
      ∧ (Mock1.stopDetection mock1Full).video = none
      ∧ (Mock1.stopDetection mock1Full).canvas.content = []
      ∧ releaseOk mock1Full.video mock1Full.released
          (Mock1.stopDetection mock1Full).released)) :=
  ⟨fun _ hh => hh, fun _ hh => hh,
    C3_stop_full_teardown tsxFull mock1Full (fun _ hh => hh) (fun _ hh => hh)⟩

/-- C4: `stopDetection` is idempotent (delegated and plain mock variants),
never touches the error message, is the identity on any idle state, and in
particular is a safe no-op on the freshly mounted, never-started
component. -/
theorem C4_stop_idempotent_noop_when_idle :
    (∀ s : Tsx.State,
      Tsx.stopDetection (Tsx.stopDetection s) = Tsx.stopDetection s)
  ∧ (∀ s : Mock0.State,
      Mock0.stopDetection (Mock0.stopDetection s) = Mock0.stopDetection s)
  ∧ (∀ s : Tsx.State, (Tsx.stopDetection s).error = s.error)
  ∧ (∀ s : Mock0.State, (Mock0.stopDetection s).error = s.error)
  ∧ (∀ s : Tsx.State, Tsx.Idle s → Tsx.stopDetection s = s)
  ∧ (∀ s : Mock0.State, Mock0.Idle s → Mock0.stopDetection s = s)
  ∧ Tsx.stopDetection Tsx.initState = Tsx.initState
  ∧ Mock0.stopDetection Mock0.initState = Mock0.initState := by
  have hidleT : ∀ s : Tsx.State, Tsx.Idle s → Tsx.stopDetection s = s := by
    intro s hs
    obtain ⟨h1, h2, h3, h4, h5, h6⟩ := hs
    exact tsx_stop_of_torn s h1 h2 h5 h6
      (fun h hh => by rw [h3] at hh; exact absurd hh (by simp))
  have hidleM : ∀ s : Mock0.State, Mock0.Idle s → Mock0.stopDetection s = s := by
    intro s hs
    obtain ⟨h1, h2, h3, h4, h5, h6⟩ := hs
    exact m0_stop_of_torn s h1 h2 h5 h6
      (fun h hh => by rw [h3] at hh; exact absurd hh (by simp))
  refine ⟨?_, ?_, ?_, ?_, hidleT, hidleM, ?_, ?_⟩
  · intro s
    obtain ⟨h1, h2, h3, h4, -, h6⟩ := tsx_stop_fields s
    exact tsx_stop_of_torn _ h1 h2 h3 h4
      (fun h hh => tsx_stop_pending_ne s h (by rw [← h6]; exact hh))
  · intro s
    obtain ⟨h1, h2, h3, h4, -, h6⟩ := m0_stop_fields s
    exact m0_stop_of_torn _ h1 h2 h3 h4
      (fun h hh => m0_stop_pending_ne s h (by rw [← h6]; exact hh))
  · intro s
    exact (tsx_stop_fields s).2.2.2.2.1
  · intro s
    exact (m0_stop_fields s).2.2.2.2.1
  · exact hidleT Tsx.initState ⟨rfl, rfl, rfl, rfl, rfl, rfl⟩
  · exact hidleM Mock0.initState ⟨rfl, rfl, rfl, rfl, rfl, rfl⟩

/-- C5 as stated is false on the delegated variant: from a concrete state
with handle 5 stored and its request pending, `stopDetection` cancels the
pending request yet the stored handle is still 5, not null. -/
theorem C5_handle_not_nulled_counterexample :
    tsxFull.animationFrame = some 5 ∧ tsxFull.pending = some 5
    ∧ (Tsx.stopDetection tsxFull).pending = none
    ∧ (Tsx.stopDetection tsxFull).animationFrame = some 5
    ∧ ¬ (Tsx.stopDetection tsxFull).animationFrame = none :=
  ⟨rfl, rfl, rfl, rfl, by decide⟩

/-- C5 amended: only the throttled variant nulls the stored scheduled-task
handle after cancellation — after its `stopDetection` the handle is always
null; the delegated and plain mock variants cancel without nulling. -/
theorem C5_throttled_stop_nulls_handle (s : Mock1.State) :
    (Mock1.stopDetection s).animationFrame = none := by
  cases haf : s.animationFrame <;> cases hv : s.video <;>
    simp [Mock1.stopDetection, haf, hv]

/-- C1 as stated is false on the throttled variant: this concrete tick
executes while Active (timestamp delta 10 ms, under the 33 ms threshold),
draws no video frame and runs no processing — canvas and hand count are
unchanged — contradicting the claim that every Active tick draws the frame,
processes and renders; it does still schedule the next tick. -/
theorem C1_throttled_skip_counterexample :
    mock1actv.isActive = true
    ∧ (10 : ℚ) - mock1actv.lastFrameTime < 33
    ∧ (Mock1.runTick trivEnv mock1actv 10 (1 / 2) 0 7).canvas = mock1actv.canvas
    ∧ (Mock1.runTick trivEnv mock1actv 10 (1 / 2) 0 7).handCount =
        mock1actv.handCount
    ∧ (Mock1.runTick trivEnv mock1actv 10 (1 / 2) 0 7).pending = some 7 := by
  refine ⟨rfl, by norm_num [mock1actv], ?_, ?_, ?_⟩ <;>
    norm_num [Mock1.runTick, Mock1.updateCanvas, mock1actv]

/-- C1 amended: in the delegated and plain mock variants every tick
executing while Active draws the current video frame, runs the frame
processor, renders the overlay and schedules exactly one next tick; in the
throttled variant this holds for ticks whose timestamp delta is at least
33 ms, while an Active tick under the threshold skips drawing and
processing but still schedules exactly one next tick; in every variant a
tick executing while not Active schedules no further tick.  (The delegated
tick's detector hypothesis holds on every tick the code can reach: the loop
is only entered by `startDetection` after its detector check.) -/
theorem C1_render_loop_tick :
    (∀ (s : Tsx.State) (hands : List Hand) (h : Nat),
      s.isActive = true → s.detector = some () →
      Tsx.runTick s (Except.ok hands) h =
        { s with handCount := hands.length,
                 canvas := Tsx.drawHands s.canvas hands,
                 animationFrame := some h, pending := some h })
  ∧ (∀ (c : Canvas) (hands : List Hand),
      (Tsx.drawHands c hands).content =
        DrawOp.drawImage c.width c.height ::
          hands.flatMap fun hd => Tsx.handOps hd.keypoints)
  ∧ (∀ (s : Tsx.State) (res : Except String (List Hand)) (h : Nat),
      s.isActive = false → (Tsx.runTick s res h).pending = none)
  ∧ (∀ (env : MathEnv) (s : Mock0.State) (r : ℚ) (h : Nat),
      s.isActive = true →
      Mock0.runTick env s r h =
        { s with handCount := randomHandCount r,
                 canvas := (s.canvas.draw
                     (.drawImage s.canvas.width s.canvas.height)).drawAll
                   (Mock0.drawMockHands env s.canvas.width s.canvas.height
                     (randomHandCount r)),
                 animationFrame := some h, pending := some h })
  ∧ (∀ (env : MathEnv) (s : Mock0.State) (r : ℚ) (h : Nat),
      s.isActive = false → (Mock0.runTick env s r h).pending = none)
  ∧ (∀ (env : MathEnv) (s : Mock1.State) (t r time : ℚ) (h : Nat),
      s.isActive = true → 33 ≤ t - s.lastFrameTime →
      Mock1.runTick env s t r time h =
        { s with lastFrameTime := t,
                 handCount := randomHandCount r,
                 canvas := (s.canvas.draw
                     (.drawImage s.canvas.width s.canvas.height)).drawAll
                   (Mock1.drawSimulatedHands env s.canvas.width s.canvas.height
                     (randomHandCount r) time),
                 animationFrame := some h, pending := some h })
  ∧ (∀ (env : MathEnv) (s : Mock1.State) (t r time : ℚ) (h : Nat),
      s.isActive = true → t - s.lastFrameTime < 33 →
      Mock1.runTick env s t r time h =
        { s with animationFrame := some h, pending := some h })
  ∧ (∀ (env : MathEnv) (s : Mock1.State) (t r time : ℚ) (h : Nat),
      s.isActive = false → (Mock1.runTick env s t r time h).pending = none) := by
  refine ⟨?_, ?_, ?_, ?_, ?_, ?_, ?_, ?_⟩
  · intro s hands h hact hdet
    simp [Tsx.runTick, Tsx.detectHands, hdet, hact]
  · intro c hands
    simp [Tsx.drawHands, Canvas.clear, Canvas.draw, Canvas.drawAll]
  · intro s res h hact
    cases hd : s.detector <;> cases res <;>
      simp [Tsx.runTick, Tsx.detectHands, hd, hact]
  · intro env s r h hact
    simp [Mock0.runTick, Mock0.detectHands, Canvas.draw, Canvas.drawAll, hact]
  · intro env s r h hact
    simp [Mock0.runTick, Mock0.detectHands, hact]
  · intro env s t r time h hact h33
    have hge : ¬ t - s.lastFrameTime < 33 := not_lt.mpr h33
    simp [Mock1.runTick, Mock1.updateCanvas, Canvas.draw, Canvas.drawAll,
      hge, hact]
  · intro env s t r time h hact hthr
    simp [Mock1.runTick, Mock1.updateCanvas, hthr, hact]
  · intro env s t r time h hact
    by_cases hthr : t - s.lastFrameTime < 33 <;>
      simp [Mock1.runTick, Mock1.updateCanvas, hthr, hact]

/-- C1 amended at concrete inputs: a delegated Active tick with an empty
detection result, and a throttled-variant Active tick above the threshold,
each end with exactly the next tick pending. -/
theorem C1_render_loop_tick_witness :
    tsxFull.isActive = true ∧ tsxFull.detector = some ()
    ∧ Tsx.runTick tsxFull (Except.ok []) 2 =
        { tsxFull with handCount := 0,
                       canvas := Tsx.drawHands tsxFull.canvas [],
                       animationFrame := some 2, pending := some 2 }
    ∧ mock1Full.isActive = true ∧ (33 : ℚ) ≤ 200 - mock1Full.lastFrameTime
    ∧ Mock1.runTick trivEnv mock1Full 200 (1 / 2) 0 4 =
        { mock1Full with
            lastFrameTime := 200,
            handCount := randomHandCount (1 / 2),
            canvas := (mock1Full.canvas.draw
                (.drawImage mock1Full.canvas.width mock1Full.canvas.height)).drawAll
              (Mock1.drawSimulatedHands trivEnv mock1Full.canvas.width
                mock1Full.canvas.height (randomHandCount (1 / 2)) 0),
            animationFrame := some 4, pending := some 4 } :=
  ⟨rfl, rfl,
    C1_render_loop_tick.1 tsxFull [] 2 rfl rfl,
    rfl, by norm_num [mock1Full],
    C1_render_loop_tick.2.2.2.2.2.1 trivEnv mock1Full 200 (1 / 2) 0 4 rfl
      (by norm_num [mock1Full])⟩

end HandVista
